import Mathlib

/-!
# Session registry client of confita (`controllers/session.go`)

A shallow embedding of the session operations (`GetSession`, `AddSession`,
`UpdateSession`, `DeleteSession`, `IsSessionDuplicated`) and of the two
transport helpers they are built on (`doPost`, `doGetResponse`).

Conventions of the embedding:

* a Go `string` is a list of bytes (it need not be valid UTF-8);
* a byte slice holding JSON text is represented by the document it spells
  (`Body.doc`), or by `Body.invalid` when the bytes are not one JSON value;
* a Go pointer is an `Option`, a Go `error` result is an `Option GoError`,
  and a function returning `(T, error)` returns a pair;
* dereferencing a nil pointer is a run-time panic: functions that
  dereference return `Except Panic _`;
* configuration (`beego.AppConfig`), the SDK calls `auth.GetUrl` and
  `auth.DoGetBytesRaw`, and the HTTP client are fields of `Env`;
* `encoding/json` is modelled on documents: struct tags, letter-case
  insensitive member names, `null` handling, type mismatches, numbers that
  do not fit a float64 when decoded into an interface, and the coercion of
  strings to valid UTF-8 on output.
-/

namespace Confita

/-! ## Strings -/

/-- A Go string: a sequence of bytes. -/
abbrev GoString := List UInt8

/-- The bytes of an ASCII string literal of the source. -/
def ascii (s : String) : GoString := s.data.map (fun c => UInt8.ofNat c.toNat)

/-- The call `fmt.Sprintf("%s/%s/%s", a, b, c)`. -/
def Sprintf3 (a b c : GoString) : GoString :=
  a ++ ascii "/" ++ b ++ ascii "/" ++ c

/-- Size that `utf8.DecodeRune` reports for a well-formed sequence at the head
of `p`; `none` where it reports `(RuneError, 1)` or the input is empty. -/
def utf8SeqLen : GoString → Option Nat
  | [] => none
  | p0 :: rest =>
    if p0 < 0x80 then some 1
    else if p0 < 0xC2 then none
    else if p0 < 0xE0 then
      match rest with
      | b1 :: _ => if 0x80 ≤ b1 ∧ b1 ≤ 0xBF then some 2 else none
      | [] => none
    else if p0 < 0xF0 then
      match rest with
      | b1 :: b2 :: _ =>
        if (if p0 = 0xE0 then 0xA0 else 0x80) ≤ b1
            ∧ b1 ≤ (if p0 = 0xED then 0x9F else 0xBF)
            ∧ 0x80 ≤ b2 ∧ b2 ≤ 0xBF then some 3 else none
      | _ => none
    else if p0 < 0xF5 then
      match rest with
      | b1 :: b2 :: b3 :: _ =>
        if (if p0 = 0xF0 then 0x90 else 0x80) ≤ b1
            ∧ b1 ≤ (if p0 = 0xF4 then 0x8F else 0xBF)
            ∧ 0x80 ≤ b2 ∧ b2 ≤ 0xBF ∧ 0x80 ≤ b3 ∧ b3 ≤ 0xBF then some 4 else none
      | _ => none
    else none

/-- Worker of `utf8Valid`: `pending` bytes of the current sequence are still
to be passed over. -/
def utf8ValidFrom : Nat → GoString → Bool
  | _, [] => true
  | k + 1, _ :: rest => utf8ValidFrom k rest
  | 0, b :: rest =>
    match utf8SeqLen (b :: rest) with
    | some n => utf8ValidFrom (n - 1) rest
    | none => false

/-- The test `utf8.Valid`: the bytes are a sequence of well-formed UTF-8
encodings. -/
def utf8Valid (s : GoString) : Bool := utf8ValidFrom 0 s

/-- Worker of `toValidUTF8`. -/
def toValidUTF8From : Nat → GoString → GoString
  | _, [] => []
  | k + 1, b :: rest => b :: toValidUTF8From k rest
  | 0, b :: rest =>
    match utf8SeqLen (b :: rest) with
    | some n => b :: toValidUTF8From (n - 1) rest
    | none => 0xEF :: 0xBF :: 0xBD :: toValidUTF8From 0 rest

/-- What a string becomes when `json.Marshal` writes it and the text is read
back: well-formed sequences are kept, every other byte is replaced by the
encoding of U+FFFD. -/
def toValidUTF8 (s : GoString) : GoString := toValidUTF8From 0 s

/-! ## JSON documents -/

/-- A JSON document. Strings are held as the decoder hands them out. A number
is held as its literal together with the verdict of
`strconv.ParseFloat(literal, 64)` on it: `float64` is `true` when the call
yields a value and `false` when it reports the literal out of range, as it
does for `1e999`. -/
inductive Json where
  | null
  | bool (b : Bool)
  | num (literal : GoString) (float64 : Bool)
  | str (s : GoString)
  | arr (items : List Json)
  | obj (members : List (GoString × Json))

/-- A byte slice that is expected to hold JSON text. -/
inductive Body where
  /-- Bytes the JSON scanner rejects with a `*json.SyntaxError`: not one JSON
  value, or nested deeper than the scanner allows; this includes the nil and
  the empty slice. -/
  | invalid
  /-- The text of the document `j`. -/
  | doc (j : Json)

/-- Comparison `x == s` of an interface value with a string constant. -/
def Json.eqString : Json → GoString → Bool
  | .str t, s => t == s
  | _, _ => false

/-- Comparison `x == b` of an interface value with a boolean constant. -/
def Json.eqBool : Json → Bool → Bool
  | .bool c, b => c == b
  | _, _ => false

/-- Member names of an object, in document order; empty for other values. -/
def Json.keys : Json → List GoString
  | .obj ms => ms.map Prod.fst
  | _ => []

/-- Errors the operations can hand back. -/
inductive GoError where
  /-- An error of the HTTP layer, with its cause. -/
  | transport (cause : GoString)
  /-- A `*json.SyntaxError`. -/
  | jsonSyntax
  /-- A `*json.UnmarshalTypeError`: its `Value`, and its `Field`, the JSON
  name of the struct field being decoded, empty for the top-level value. -/
  | unmarshalType (value : GoString) (field : GoString)
  /-- The value of `fmt.Errorf(format)`. -/
  | errorf (format : GoString)
  deriving DecidableEq, Repr

/-- Run-time panics. -/
inductive Panic where
  | nilDereference
  deriving DecidableEq, Repr

/-- Key under which `encoding/json` looks a member name up when no field has
exactly that name: ASCII letters in upper case, U+017F as `S` and U+212A as
`K`. Other bytes are kept; they match no field name of this program. -/
def foldName : GoString → GoString
  | [] => []
  | 0xC5 :: 0xBF :: rest => 0x53 :: foldName rest
  | 0xE2 :: 0x84 :: 0xAA :: rest => 0x4B :: foldName rest
  | c :: rest => (if 0x61 ≤ c ∧ c ≤ 0x7A then c - 0x20 else c) :: foldName rest

/-- The member name `key` selects the field tagged `tag`. -/
def nameMatches (tag key : GoString) : Bool :=
  key == tag || foldName key == foldName tag

/-- Keep the first error, as `decodeState.saveError` does. -/
def saveError (saved : Option GoError) (e : Option GoError) : Option GoError :=
  match saved with
  | some s => some s
  | none => e

/-- The `Value` of the `*json.UnmarshalTypeError` reported when a document
of this kind meets a Go value it cannot be stored in. -/
def Json.kindName : Json → GoString
  | .null => ascii "null"
  | .bool _ => ascii "bool"
  | .num _ _ => ascii "number"
  | .str _ => ascii "string"
  | .arr _ => ascii "array"
  | .obj _ => ascii "object"

/-- Decoding a value into a `string` that currently holds `cur`. -/
def storeString (field : GoString) (cur : GoString) : Json → GoString × Option GoError
  | .str s => (s, none)
  | .null => (cur, none)
  | j => (cur, some (.unmarshalType j.kindName field))

/-- Decoding the items of an array into the elements of a `[]string` whose
current elements are `cur`; elements past the current length start empty. -/
def storeItems (field : GoString) : List GoString → List Json → List GoString × Option GoError
  | _, [] => ([], none)
  | cur, j :: js =>
    let (s, e) := storeString field (cur.headD []) j
    let (ss, es) := storeItems field cur.tail js
    (s :: ss, saveError e es)

/-- Decoding a value into a `[]string` that currently holds `cur`. Capacity
left over from an earlier, longer value of the same field is not modelled. -/
def storeStrings (field : GoString) (cur : Option (List GoString)) :
    Json → Option (List GoString) × Option GoError
  | .null => (none, none)
  | .arr items =>
    let (ss, e) := storeItems field (cur.getD []) items
    (some ss, e)
  | j => (cur, some (.unmarshalType j.kindName field))

mutual
/-- Decoding a value into an empty interface (`decodeState.valueInterface`):
the value stored, and the error. Every number goes through
`strconv.ParseFloat`; one that is out of range is stored as nil and reported
as a `*json.UnmarshalTypeError` whose `Value` is "number " followed by the
literal. -/
def Json.toInterface (field : GoString) : Json → Json × Option GoError
  | .num literal false => (.null, some (.unmarshalType (ascii "number " ++ literal) field))
  | .arr items =>
    let (xs, e) := toInterfaceItems field items
    (.arr xs, e)
  | .obj members =>
    let (xs, e) := toInterfaceMembers field members
    (.obj xs, e)
  | j => (j, none)
/-- The items of an array decoded into an empty interface. -/
def toInterfaceItems (field : GoString) : List Json → List Json × Option GoError
  | [] => ([], none)
  | j :: js =>
    let (x, e) := j.toInterface field
    let (xs, es) := toInterfaceItems field js
    (x :: xs, saveError e es)
/-- The members of an object decoded into an empty interface. -/
def toInterfaceMembers (field : GoString) :
    List (GoString × Json) → List (GoString × Json) × Option GoError
  | [] => ([], none)
  | (k, j) :: ms =>
    let (x, e) := j.toInterface field
    let (xs, es) := toInterfaceMembers field ms
    ((k, x) :: xs, saveError e es)
end

/-- Decoding a value into an interface field that currently holds `cur`
(`decodeState.value` on an empty interface). A number literal at the top is
stored by `literalStore`, which leaves the field as it is when the number is
out of range; everything else is stored as `Json.toInterface` gives it. -/
def storeInterface (field : GoString) (cur : Json) : Json → Json × Option GoError
  | .num literal false => (cur, some (.unmarshalType (ascii "number " ++ literal) field))
  | j => j.toInterface field

/-! ## The `Session` record -/

/-- The struct `Session`; `SessionId = none` is the nil slice. -/
structure Session where
  Owner : GoString
  Name : GoString
  Application : GoString
  CreatedTime : GoString
  SessionId : Option (List GoString)
  deriving DecidableEq, Repr

/-- The zero value of `Session`. -/
def Session.zero : Session :=
  { Owner := [], Name := [], Application := [], CreatedTime := [], SessionId := none }

/-- The call `json.Marshal(session)` for a non-nil `*Session`: one member per
field, named by its `json` tag, in field order; no member is ever left out. -/
def marshalSession (s : Session) : Json :=
  .obj [ (ascii "owner", .str (toValidUTF8 s.Owner)),
         (ascii "name", .str (toValidUTF8 s.Name)),
         (ascii "application", .str (toValidUTF8 s.Application)),
         (ascii "createdTime", .str (toValidUTF8 s.CreatedTime)),
         (ascii "sessionId",
            match s.SessionId with
            | none => .null
            | some ids => .arr (ids.map (fun t => .str (toValidUTF8 t)))) ]

/-- Decoding one object member into a `Session`. -/
def storeSessionMember (acc : Session × Option GoError) (m : GoString × Json) :
    Session × Option GoError :=
  let (s, saved) := acc
  if nameMatches (ascii "owner") m.1 then
    let (v, e) := storeString (ascii "owner") s.Owner m.2
    ({ s with Owner := v }, saveError saved e)
  else if nameMatches (ascii "name") m.1 then
    let (v, e) := storeString (ascii "name") s.Name m.2
    ({ s with Name := v }, saveError saved e)
  else if nameMatches (ascii "application") m.1 then
    let (v, e) := storeString (ascii "application") s.Application m.2
    ({ s with Application := v }, saveError saved e)
  else if nameMatches (ascii "createdTime") m.1 then
    let (v, e) := storeString (ascii "createdTime") s.CreatedTime m.2
    ({ s with CreatedTime := v }, saveError saved e)
  else if nameMatches (ascii "sessionId") m.1 then
    let (v, e) := storeStrings (ascii "sessionId") s.SessionId m.2
    ({ s with SessionId := v }, saveError saved e)
  else (s, saved)

/-- The call `json.Unmarshal(bytes, &session)` for `var session *Session`:
the pointer afterwards, and the error. -/
def unmarshalSession : Body → Option Session × Option GoError
  | .invalid => (none, some .jsonSyntax)
  | .doc .null => (none, none)
  | .doc (.obj ms) =>
    let (s, e) := ms.foldl storeSessionMember (Session.zero, none)
    (some s, e)
  | .doc j => (some Session.zero, some (.unmarshalType j.kindName []))

/-! ## The response envelope -/

/-- Modelled from the spec: the struct `Response` is declared in another
file of the package; the envelope is `{ status, msg, data: any }`, with `data`
decoded into an empty interface (held here as the document it was decoded
from, `null` being the nil interface). A member named `data` is decoded by
`storeInterface`, which fails on a number that is out of range. -/
structure Response where
  Status : GoString
  Msg : GoString
  Data : Json

/-- The zero value of `Response`. -/
def Response.zero : Response := { Status := [], Msg := [], Data := .null }

/-- Decoding one object member into a `Response`. -/
def storeResponseMember (acc : Response × Option GoError) (m : GoString × Json) :
    Response × Option GoError :=
  let (r, saved) := acc
  if nameMatches (ascii "status") m.1 then
    let (v, e) := storeString (ascii "status") r.Status m.2
    ({ r with Status := v }, saveError saved e)
  else if nameMatches (ascii "msg") m.1 then
    let (v, e) := storeString (ascii "msg") r.Msg m.2
    ({ r with Msg := v }, saveError saved e)
  else if nameMatches (ascii "data") m.1 then
    let (v, e) := storeInterface (ascii "data") r.Data m.2
    ({ r with Data := v }, saveError saved e)
  else (r, saved)

/-- The call `json.Unmarshal(bytes, &response)` for `var response Response`:
the struct afterwards, and the error. -/
def unmarshalResponse : Body → Response × Option GoError
  | .invalid => (Response.zero, some .jsonSyntax)
  | .doc .null => (Response.zero, none)
  | .doc (.obj ms) => ms.foldl storeResponseMember (Response.zero, none)
  | .doc j => (Response.zero, some (.unmarshalType j.kindName []))

/-! ## The environment of a call -/

/-- Body of an HTTP request. -/
inductive PostBody where
  /-- The bytes as they are, a reader over `postBytes`. -/
  | raw (postBytes : Json)
  /-- A multipart form with the given boundary and parts, each a field name,
  a file name and the content. -/
  | form (boundary : GoString) (parts : List (GoString × GoString × Json))

/-- The request that `doPost` hands to the HTTP client. -/
structure HttpRequest where
  method : GoString
  url : GoString
  basicAuth : GoString × GoString
  contentType : GoString
  body : PostBody

/-- What `client.Do(req)` followed by `ioutil.ReadAll(resp.Body)` yields. -/
inductive HttpReply where
  /-- The error of `client.Do`. -/
  | failed (e : GoError)
  /-- The error of `ioutil.ReadAll`. -/
  | unreadable (e : GoError)
  /-- The bytes read. -/
  | read (respByte : Body)

/-- Everything outside `session.go` that a call depends on. -/
structure Env where
  /-- The setting `casdoorOrganization`. -/
  casdoorOrganization : GoString
  /-- The setting `casdoorApplication`. -/
  casdoorApplication : GoString
  /-- The setting `clientId`. -/
  clientId : GoString
  /-- The setting `clientSecret`. -/
  clientSecret : GoString
  /-- The SDK call `auth.GetUrl(action, queryMap)`; the nil map is `[]`. -/
  GetUrl : GoString → List (GoString × GoString) → GoString
  /-- The SDK call `auth.DoGetBytesRaw(url)`, returning `([]byte, error)`. -/
  DoGetBytesRaw : GoString → Body × Option GoError
  /-- The error of `http.NewRequest("POST", url, body)`, if any. -/
  NewRequest : GoString → Option GoError
  /-- The HTTP client. -/
  Do : HttpRequest → HttpReply
  /-- The boundary a new `multipart.Writer` picks. -/
  boundary : GoString

/-- The function `getOrg`. -/
def getOrg (env : Env) : GoString := env.casdoorOrganization

/-- The function `getApp`. -/
def getApp (env : Env) : GoString := env.casdoorApplication

/-- The function `createForm`: content type, body, and a nil error. -/
def createForm (env : Env) (formData : List (GoString × Json)) :
    GoString × PostBody × Option GoError :=
  (ascii "multipart/form-data; boundary=" ++ env.boundary,
   .form env.boundary (formData.map (fun kv => (kv.1, ascii "file", kv.2))),
   none)

/-- The request `doPost` builds from its arguments (URL, content type, body,
credentials), or the error of `createForm`. -/
def buildPost (env : Env) (action : GoString) (queryMap : List (GoString × GoString))
    (postBytes : Json) (isFile : Bool) : Except GoError HttpRequest :=
  let url := env.GetUrl action queryMap
  let built : Except GoError (GoString × PostBody) :=
    if isFile then
      match createForm env [(ascii "file", postBytes)] with
      | (_, _, some err) => .error err
      | (contentType, body, none) => .ok (contentType, body)
    else
      .ok (ascii "text/plain;charset=UTF-8", .raw postBytes)
  match built with
  | .error err => .error err
  | .ok (contentType, body) =>
    .ok { method := ascii "POST", url := url,
          basicAuth := (env.clientId, env.clientSecret),
          contentType := contentType, body := body }

/-- Lines 174 to 207 of `doPost`: the request is created, sent, the reply is
read and decoded. -/
def sendPost (env : Env) (req : HttpRequest) : Option Response × Option GoError :=
  match env.NewRequest req.url with
  | some err => (none, some err)
  | none =>
    match env.Do req with
    | .failed err => (none, some err)
    | .unreadable err => (none, some err)
    | .read respByte =>
      match unmarshalResponse respByte with
      | (_, some err) => (none, some err)
      | (response, none) => (some response, none)

/-- The function `doPost`, returning `(*Response, error)`. -/
def doPost (env : Env) (action : GoString) (queryMap : List (GoString × GoString))
    (postBytes : Json) (isFile : Bool) : Option Response × Option GoError :=
  match buildPost env action queryMap postBytes isFile with
  | .error err => (none, some err)
  | .ok req => sendPost env req

/-- The function `doGetResponse`, returning `(*Response, error)`. The error
of `auth.DoGetBytesRaw` is overwritten before it is looked at. -/
def doGetResponse (env : Env) (url : GoString) : Option Response × Option GoError :=
  let (respBytes, _) := env.DoGetBytesRaw url
  match unmarshalResponse respBytes with
  | (_, some err) => (none, some err)
  | (response, none) =>
    if response.Status ≠ ascii "ok" then (none, some (.errorf response.Msg))
    else (some response, none)

/-! ## The session operations -/

/-- The query map of `GetSession`. -/
def getSessionQuery (env : Env) (userName : GoString) : List (GoString × GoString) :=
  [(ascii "sessionPkId", Sprintf3 (getOrg env) userName (getApp env))]

/-- The function `GetSession`, returning `(*Session, error)`. -/
def GetSession (env : Env) (userName : GoString) : Option Session × Option GoError :=
  let queryMap := getSessionQuery env userName
  let url := env.GetUrl (ascii "get-session") queryMap
  match env.DoGetBytesRaw url with
  | (_, some err) => (none, some err)
  | (bytes, none) =>
    match unmarshalSession bytes with
    | (_, some err) => (none, some err)
    | (session, none) => (session, none)

/-- The tail shared by the three mutating operations: from the result of
`doPost` to the result of the operation. Reading `resp.Data` dereferences
`resp`. -/
def affected (r : Option Response × Option GoError) : Except Panic (Bool × Option GoError) :=
  match r with
  | (_, some err) => .ok (false, some err)
  | (none, none) => .error .nilDereference
  | (some resp, none) => .ok (resp.Data.eqString (ascii "Affected"), none)

/-- The local `session` of `UpdateSession`. -/
def updateSessionValue (env : Env) (userName sessionId : GoString) : Session :=
  { Owner := getOrg env, Name := userName, Application := getApp env,
    CreatedTime := [], SessionId := some [sessionId] }

/-- The function `UpdateSession`. -/
def UpdateSession (env : Env) (userName sessionId : GoString) :
    Except Panic (Bool × Option GoError) :=
  let postBytes := marshalSession (updateSessionValue env userName sessionId)
  affected (doPost env (ascii "update-session") [] postBytes false)

/-- The local `session` of `AddSession`. -/
def addSessionValue (env : Env) (userName sessionId : GoString) : Session :=
  { Owner := getOrg env, Name := userName, Application := getApp env,
    CreatedTime := [], SessionId := some [sessionId] }

/-- The function `AddSession`. -/
def AddSession (env : Env) (userName sessionId : GoString) :
    Except Panic (Bool × Option GoError) :=
  let postBytes := marshalSession (addSessionValue env userName sessionId)
  affected (doPost env (ascii "add-session") [] postBytes false)

/-- The local `session` of `DeleteSession`; `SessionId` is left nil. -/
def deleteSessionValue (env : Env) (userName : GoString) : Session :=
  { Owner := getOrg env, Name := userName, Application := getApp env,
    CreatedTime := [], SessionId := none }

/-- The function `DeleteSession`. -/
def DeleteSession (env : Env) (userName : GoString) : Except Panic (Bool × Option GoError) :=
  let postBytes := marshalSession (deleteSessionValue env userName)
  affected (doPost env (ascii "delete-session") [] postBytes false)

/-- The query map of `IsSessionDuplicated`. -/
def isSessionDuplicatedQuery (env : Env) (userName sessionId : GoString) :
    List (GoString × GoString) :=
  [(ascii "sessionPkId", Sprintf3 (getOrg env) userName (getApp env)),
   (ascii "sessionId", sessionId)]

/-- The function `IsSessionDuplicated`. The error of `doGetResponse` is
dropped and `resp.Data` dereferences `resp`. -/
def IsSessionDuplicated (env : Env) (userName sessionId : GoString) : Except Panic Bool :=
  let queryMap := isSessionDuplicatedQuery env userName sessionId
  let url := env.GetUrl (ascii "is-session-duplicated") queryMap
  match doGetResponse env url with
  | (none, _) => .error .nilDereference
  | (some resp, _) => .ok (resp.Data.eqBool true)


/-- All strings of a `Session` are valid UTF-8. -/
def Session.validUTF8 (s : Session) : Bool :=
  utf8Valid s.Owner && utf8Valid s.Name && utf8Valid s.Application
    && utf8Valid s.CreatedTime && (s.SessionId.getD []).all utf8Valid

/-- A `Session` with every string as it is after `json.Marshal` has written
it and the text was read back. -/
def Session.coerced (s : Session) : Session :=
  { Owner := toValidUTF8 s.Owner, Name := toValidUTF8 s.Name,
    Application := toValidUTF8 s.Application, CreatedTime := toValidUTF8 s.CreatedTime,
    SessionId := s.SessionId.map (fun ids => ids.map toValidUTF8) }

/-! ## Sample environments and values -/

/-- An environment in which the remote service answers every request with
the bytes `reply`. -/
def answering (reply : Body) : Env :=
  { casdoorOrganization := ascii "casbin"
    casdoorApplication := ascii "app-confita"
    clientId := ascii "id"
    clientSecret := ascii "secret"
    GetUrl := fun action _ => ascii "http://localhost:8000/api/" ++ action
    DoGetBytesRaw := fun _ => (reply, none)
    NewRequest := fun _ => none
    Do := fun _ => .read reply
    boundary := ascii "x" }

/-- An environment in which the remote service cannot be reached. -/
def unreachable : Env :=
  { answering .invalid with
    DoGetBytesRaw := fun _ => (.invalid, some (.transport (ascii "connection refused")))
    Do := fun _ => .failed (.transport (ascii "connection refused")) }

/-- The envelope with the given status, message and data. -/
def envelope (status msg : GoString) (data : Json) : Body :=
  .doc (.obj [(ascii "status", .str status), (ascii "msg", .str msg), (ascii "data", data)])

/-- What claim C3 says of one mutating operation that posts `postBytes` to
`action` and returns `result`. -/
def ReportsAffected (env : Env) (action : GoString) (postBytes : Json)
    (result : Except Panic (Bool × Option GoError)) : Prop :=
  ∃ req, buildPost env action [] postBytes false = .ok req ∧
    (∀ err, env.NewRequest req.url = some err → result = .ok (false, some err)) ∧
    (env.NewRequest req.url = none →
      (∀ err, env.Do req = .failed err → result = .ok (false, some err)) ∧
      (∀ err, env.Do req = .unreadable err → result = .ok (false, some err)) ∧
      (∀ respByte, env.Do req = .read respByte →
        (∀ err, (unmarshalResponse respByte).2 = some err →
          result = .ok (false, some err)) ∧
        ((unmarshalResponse respByte).2 = none →
          ∃ b, result = .ok (b, none) ∧
            (b = true ↔ (unmarshalResponse respByte).1.Data = .str (ascii "Affected")))))


/-! ## Strings that are valid UTF-8 -/

theorem toValidUTF8From_of_valid (s : GoString) (k : Nat) (h : utf8ValidFrom k s = true) :
    toValidUTF8From k s = s := by
  induction s generalizing k with
  | nil => cases k <;> rfl
  | cons b rest ih =>
    cases k with
    | succ k =>
      simp only [utf8ValidFrom] at h
      simp only [toValidUTF8From, ih k h]
    | zero =>
      simp only [utf8ValidFrom] at h
      simp only [toValidUTF8From]
      cases hn : utf8SeqLen (b :: rest) with
      | none => simp [hn] at h
      | some n =>
        simp only [hn] at h
        simp only [ih (n - 1) h]

theorem length_le_toValidUTF8From (s : GoString) (k : Nat) :
    s.length ≤ (toValidUTF8From k s).length := by
  induction s generalizing k with
  | nil => cases k <;> simp [toValidUTF8From]
  | cons b rest ih =>
    cases k with
    | succ k =>
      simp only [toValidUTF8From, List.length_cons]
      exact Nat.succ_le_succ (ih k)
    | zero =>
      simp only [toValidUTF8From]
      cases hn : utf8SeqLen (b :: rest) with
      | none =>
        simp only [List.length_cons]
        have := ih 0
        omega
      | some n =>
        simp only [List.length_cons]
        exact Nat.succ_le_succ (ih (n - 1))

theorem valid_of_length_toValidUTF8From (s : GoString) (k : Nat)
    (h : (toValidUTF8From k s).length = s.length) : utf8ValidFrom k s = true := by
  induction s generalizing k with
  | nil => cases k <;> rfl
  | cons b rest ih =>
    cases k with
    | succ k =>
      simp only [toValidUTF8From, List.length_cons, Nat.succ.injEq] at h
      simp only [utf8ValidFrom]
      exact ih k (by omega)
    | zero =>
      simp only [toValidUTF8From] at h
      simp only [utf8ValidFrom]
      cases hn : utf8SeqLen (b :: rest) with
      | none =>
        simp only [hn, List.length_cons] at h
        have := length_le_toValidUTF8From rest 0
        omega
      | some n =>
        simp only [hn, List.length_cons] at h
        exact ih (n - 1) (by omega)

theorem toValidUTF8_eq_iff (s : GoString) : toValidUTF8 s = s ↔ utf8Valid s = true :=
  ⟨fun h => valid_of_length_toValidUTF8From s 0 (by unfold toValidUTF8 at h; rw [h]),
   fun h => toValidUTF8From_of_valid s 0 h⟩

/-! ## Interface comparisons -/

theorem Json.eqString_iff (j : Json) (s : GoString) :
    j.eqString s = true ↔ j = .str s := by
  cases j <;> simp [Json.eqString]

theorem Json.eqBool_true_iff (j : Json) : j.eqBool true = true ↔ j = .bool true := by
  cases j <;> simp [Json.eqBool]

/-! ## The transport helpers -/

theorem buildPost_text (env : Env) (action : GoString) (q : List (GoString × GoString))
    (postBytes : Json) :
    buildPost env action q postBytes false =
      .ok { method := ascii "POST", url := env.GetUrl action q,
            basicAuth := (env.clientId, env.clientSecret),
            contentType := ascii "text/plain;charset=UTF-8", body := .raw postBytes } := rfl

theorem affected_sendPost (env : Env) (action : GoString) (postBytes : Json) :
    ReportsAffected env action postBytes
      (affected (doPost env action [] postBytes false)) := by
  refine ⟨_, buildPost_text env action [] postBytes, ?_, ?_⟩
  · intro err h
    simp [doPost, buildPost_text, sendPost, h, affected]
  · intro h
    refine ⟨?_, ?_, ?_⟩
    · intro err hd
      simp [doPost, buildPost_text, sendPost, h, hd, affected]
    · intro err hd
      simp [doPost, buildPost_text, sendPost, h, hd, affected]
    · intro respByte hd
      constructor
      · intro err hu
        have : unmarshalResponse respByte = ((unmarshalResponse respByte).1, some err) := by
          rw [← hu]
        simp only [doPost, buildPost_text, sendPost, h, hd]
        rw [this]
        simp [affected]
      · intro hu
        have : unmarshalResponse respByte = ((unmarshalResponse respByte).1, none) := by
          rw [← hu]
        refine ⟨(unmarshalResponse respByte).1.Data.eqString (ascii "Affected"), ?_,
          Json.eqString_iff _ _⟩
        simp only [doPost, buildPost_text, sendPost, h, hd]
        rw [this]
        simp [affected]

/-! ## Claims -/

/-- C1, evaluated on the code: the remote service answers every request with
the envelope of status "error" and message `m` (for instance "org not
found"). `doPost` returns the decoded envelope and no error, so `AddSession`,
`UpdateSession` and `DeleteSession` return `false` with a nil error, while
`doGetResponse` turns the very same envelope into an error made from `m`. -/
theorem post_error_envelope_returns_no_error (userName sessionId m : GoString) :
    (doPost (answering (envelope (ascii "error") m .null))
        (ascii "add-session") [] .null false).2 = none
    ∧ AddSession (answering (envelope (ascii "error") m .null)) userName sessionId
        = .ok (false, none)
    ∧ UpdateSession (answering (envelope (ascii "error") m .null)) userName sessionId
        = .ok (false, none)
    ∧ DeleteSession (answering (envelope (ascii "error") m .null)) userName
        = .ok (false, none)
    ∧ (doGetResponse (answering (envelope (ascii "error") m .null))
        (ascii "u")).2 = some (.errorf m)
    ∧ AddSession (answering (envelope (ascii "error") (ascii "org not found") .null))
        (ascii "alice") (ascii "token-1") = .ok (false, none) :=
  ⟨rfl, rfl, rfl, rfl, rfl, rfl⟩

/-- C2, evaluated on the code: when the service is unreachable, when the body
is not JSON, and when the envelope has status "error", `doGetResponse`
returns a nil pointer and `IsSessionDuplicated` dereferences it: the call
panics instead of returning `false`. -/
theorem isSessionDuplicated_panics_on_failure (userName sessionId m : GoString) :
    IsSessionDuplicated unreachable userName sessionId = .error .nilDereference
    ∧ IsSessionDuplicated (answering .invalid) userName sessionId = .error .nilDereference
    ∧ IsSessionDuplicated (answering (envelope (ascii "error") m .null)) userName sessionId
        = .error .nilDereference
    ∧ IsSessionDuplicated unreachable (ascii "alice") (ascii "token-1")
        = .error .nilDereference :=
  ⟨rfl, rfl, rfl, rfl⟩

/-- C3: each of `AddSession`, `UpdateSession` and `DeleteSession` returns
`false` with the error when the request cannot be made, sent, read or
decoded, and otherwise returns no error and a boolean that is `true` exactly
when the `data` of the decoded envelope is the string "Affected". -/
theorem mutating_operations_report_affected (env : Env) (userName sessionId : GoString) :
    ReportsAffected env (ascii "add-session")
        (marshalSession (addSessionValue env userName sessionId))
        (AddSession env userName sessionId)
    ∧ ReportsAffected env (ascii "update-session")
        (marshalSession (updateSessionValue env userName sessionId))
        (UpdateSession env userName sessionId)
    ∧ ReportsAffected env (ascii "delete-session")
        (marshalSession (deleteSessionValue env userName))
        (DeleteSession env userName) :=
  ⟨affected_sendPost env _ _, affected_sendPost env _ _, affected_sendPost env _ _⟩

/-- C3 at sample replies: `data: "Affected"` gives `true`; `data:
"Unaffected"`, `data: true` and `data: null` give `false` with no error; an
unreachable service and a body that is not JSON give `false` with the error;
so does `data: 1e999`, which the decoder rejects. -/
theorem mutating_operations_report_affected_witness :
    AddSession (answering (envelope (ascii "ok") [] (.str (ascii "Affected"))))
        (ascii "alice") (ascii "token-1") = .ok (true, none)
    ∧ UpdateSession (answering (envelope (ascii "ok") [] (.str (ascii "Unaffected"))))
        (ascii "alice") (ascii "token-1") = .ok (false, none)
    ∧ DeleteSession (answering (envelope (ascii "ok") [] (.bool true)))
        (ascii "alice") = .ok (false, none)
    ∧ AddSession (answering (envelope (ascii "ok") [] .null))
        (ascii "alice") (ascii "token-1") = .ok (false, none)
    ∧ AddSession unreachable (ascii "alice") (ascii "token-1")
        = .ok (false, some (.transport (ascii "connection refused")))
    ∧ UpdateSession (answering .invalid) (ascii "alice") (ascii "token-1")
        = .ok (false, some .jsonSyntax)
    ∧ AddSession (answering (envelope (ascii "ok") [] (.num (ascii "1e999") false)))
        (ascii "alice") (ascii "token-1")
        = .ok (false, some (.unmarshalType (ascii "number 1e999") (ascii "data"))) := by
  refine ⟨?_, ?_, ?_, ?_, ?_, ?_, ?_⟩
  · obtain ⟨req, _, _, h⟩ := (mutating_operations_report_affected
      (answering (envelope (ascii "ok") [] (.str (ascii "Affected"))))
      (ascii "alice") (ascii "token-1")).1
    obtain ⟨b, hb, hiff⟩ := ((h rfl).2.2 _ rfl).2 rfl
    rw [hb, hiff.mpr rfl]
  · obtain ⟨req, _, _, h⟩ := (mutating_operations_report_affected
      (answering (envelope (ascii "ok") [] (.str (ascii "Unaffected"))))
      (ascii "alice") (ascii "token-1")).2.1
    obtain ⟨b, hb, hiff⟩ := ((h rfl).2.2 _ rfl).2 rfl
    have hf : b = false := Bool.eq_false_iff.mpr (fun hc => by
      have hd : Json.str (ascii "Unaffected") = Json.str (ascii "Affected") := hiff.mp hc
      exact absurd (Json.str.inj hd) (by decide))
    rw [hb, hf]
  · obtain ⟨req, _, _, h⟩ := (mutating_operations_report_affected
      (answering (envelope (ascii "ok") [] (.bool true)))
      (ascii "alice") (ascii "token-1")).2.2
    obtain ⟨b, hb, hiff⟩ := ((h rfl).2.2 _ rfl).2 rfl
    have hf : b = false := Bool.eq_false_iff.mpr (fun hc => by
      have hd := hiff.mp hc
      cases hd)
    rw [hb, hf]
  · obtain ⟨req, _, _, h⟩ := (mutating_operations_report_affected
      (answering (envelope (ascii "ok") [] .null))
      (ascii "alice") (ascii "token-1")).1
    obtain ⟨b, hb, hiff⟩ := ((h rfl).2.2 _ rfl).2 rfl
    have hf : b = false := Bool.eq_false_iff.mpr (fun hc => by
      have hd := hiff.mp hc
      cases hd)
    rw [hb, hf]
  · obtain ⟨req, _, _, h⟩ := (mutating_operations_report_affected
      unreachable (ascii "alice") (ascii "token-1")).1
    exact (h rfl).1 _ rfl
  · obtain ⟨req, _, _, h⟩ := (mutating_operations_report_affected
      (answering .invalid) (ascii "alice") (ascii "token-1")).2.1
    exact ((h rfl).2.2 _ rfl).1 _ rfl
  · obtain ⟨req, _, _, h⟩ := (mutating_operations_report_affected
      (answering (envelope (ascii "ok") [] (.num (ascii "1e999") false)))
      (ascii "alice") (ascii "token-1")).1
    exact ((h rfl).2.2 _ rfl).1 _ rfl

/-- A number that is out of range for a float64, as the `data` of an
envelope or nested in it, makes the decoding of the envelope fail: `doPost`
and `doGetResponse` return a nil pointer and the error, so `AddSession`
returns `false` with the error and `IsSessionDuplicated` panics. -/
theorem number_out_of_range_fails_decoding :
    (unmarshalResponse (envelope (ascii "ok") [] (.num (ascii "1e999") false))).2
      = some (.unmarshalType (ascii "number 1e999") (ascii "data"))
    ∧ (unmarshalResponse (envelope (ascii "ok") []
        (.arr [.bool true, .obj [(ascii "n", .num (ascii "-1e400") false)]]))).2
      = some (.unmarshalType (ascii "number -1e400") (ascii "data"))
    ∧ (unmarshalResponse (envelope (ascii "ok") [] (.num (ascii "1.5") true))).2 = none
    ∧ doGetResponse (answering (envelope (ascii "ok") [] (.num (ascii "1e999") false)))
        (ascii "u")
      = (none, some (.unmarshalType (ascii "number 1e999") (ascii "data")))
    ∧ IsSessionDuplicated (answering (envelope (ascii "ok") [] (.num (ascii "1e999") false)))
        (ascii "alice") (ascii "token-1") = .error .nilDereference
    ∧ AddSession (answering (envelope (ascii "ok") [] (.num (ascii "1e999") false)))
        (ascii "alice") (ascii "token-1")
      = .ok (false, some (.unmarshalType (ascii "number 1e999") (ascii "data"))) :=
  ⟨rfl, rfl, rfl, rfl, rfl, rfl⟩

/-- C4: when the body answering the is-session-duplicated query decodes
without error into an envelope of status "ok", `IsSessionDuplicated` returns
normally, and its result is `true` exactly when the `data` of the envelope is
the boolean `true`; for any other `data` the result is `false`. -/
theorem isSessionDuplicated_ok_iff_data_true (env : Env) (userName sessionId : GoString)
    (resp : Response)
    (hdecode : unmarshalResponse (env.DoGetBytesRaw (env.GetUrl (ascii "is-session-duplicated")
        (isSessionDuplicatedQuery env userName sessionId))).1 = (resp, none))
    (hstatus : resp.Status = ascii "ok") :
    (IsSessionDuplicated env userName sessionId = .ok true ↔ resp.Data = .bool true)
    ∧ (resp.Data ≠ .bool true → IsSessionDuplicated env userName sessionId = .ok false) := by
  have h : IsSessionDuplicated env userName sessionId = .ok (resp.Data.eqBool true) := by
    simp [IsSessionDuplicated, doGetResponse, hdecode, hstatus]
  rw [h, ← Json.eqBool_true_iff]
  constructor
  · constructor
    · intro hb
      injection hb
    · intro hb
      rw [hb]
  · intro hb
    rw [show resp.Data.eqBool true = false from
      Bool.eq_false_iff.mpr (fun hc => hb ((Json.eqBool_true_iff _).mp hc))]

/-- C4 at sample inputs: the envelope decodes with status "ok"; `data: true`
gives `true`, and both `data: false` and `data: "true"` give `false`. -/
theorem isSessionDuplicated_ok_iff_data_true_witness :
    IsSessionDuplicated (answering (envelope (ascii "ok") [] (.bool true)))
        (ascii "alice") (ascii "token-1") = .ok true
    ∧ IsSessionDuplicated (answering (envelope (ascii "ok") [] (.bool false)))
        (ascii "alice") (ascii "token-1") = .ok false
    ∧ IsSessionDuplicated (answering (envelope (ascii "ok") [] (.str (ascii "true"))))
        (ascii "alice") (ascii "token-1") = .ok false :=
  ⟨(isSessionDuplicated_ok_iff_data_true
      (answering (envelope (ascii "ok") [] (.bool true))) (ascii "alice") (ascii "token-1")
      { Status := ascii "ok", Msg := [], Data := .bool true } rfl rfl).1.mpr rfl,
   (isSessionDuplicated_ok_iff_data_true
      (answering (envelope (ascii "ok") [] (.bool false))) (ascii "alice") (ascii "token-1")
      { Status := ascii "ok", Msg := [], Data := .bool false } rfl rfl).2 (by simp),
   (isSessionDuplicated_ok_iff_data_true
      (answering (envelope (ascii "ok") [] (.str (ascii "true")))) (ascii "alice")
      (ascii "token-1")
      { Status := ascii "ok", Msg := [], Data := .str (ascii "true") } rfl rfl).2 (by simp)⟩

/-- C5: `AddSession` and `UpdateSession` post the same request but for the
action in the URL: method POST, no query parameters, the configured
credentials, content type text/plain, and as body the JSON of a `Session`
whose owner is the configured organization, whose name is `userName`, whose
application is the configured application, whose `createdTime` is empty and
whose `sessionId` is the one-element list of the token. -/
theorem addSession_updateSession_same_request (env : Env) (userName sessionId : GoString) :
    AddSession env userName sessionId =
      affected (sendPost env
        { method := ascii "POST", url := env.GetUrl (ascii "add-session") [],
          basicAuth := (env.clientId, env.clientSecret),
          contentType := ascii "text/plain;charset=UTF-8",
          body := .raw (marshalSession
            { Owner := env.casdoorOrganization, Name := userName,
              Application := env.casdoorApplication, CreatedTime := [],
              SessionId := some [sessionId] }) })
    ∧ UpdateSession env userName sessionId =
      affected (sendPost env
        { method := ascii "POST", url := env.GetUrl (ascii "update-session") [],
          basicAuth := (env.clientId, env.clientSecret),
          contentType := ascii "text/plain;charset=UTF-8",
          body := .raw (marshalSession
            { Owner := env.casdoorOrganization, Name := userName,
              Application := env.casdoorApplication, CreatedTime := [],
              SessionId := some [sessionId] }) })
    ∧ marshalSession
        { Owner := env.casdoorOrganization, Name := userName,
          Application := env.casdoorApplication, CreatedTime := [],
          SessionId := some [sessionId] } =
      .obj [ (ascii "owner", .str (toValidUTF8 env.casdoorOrganization)),
             (ascii "name", .str (toValidUTF8 userName)),
             (ascii "application", .str (toValidUTF8 env.casdoorApplication)),
             (ascii "createdTime", .str []),
             (ascii "sessionId", .arr [.str (toValidUTF8 sessionId)]) ] :=
  ⟨rfl, rfl, rfl⟩

/-- C6 fails: the body `DeleteSession` posts has a member named "sessionId". -/
theorem deleteSession_body_has_sessionId :
    ¬ (ascii "sessionId" ∉
        (marshalSession (deleteSessionValue (answering .invalid) (ascii "alice"))).keys) := by
  decide

/-- C6 amended: the body `DeleteSession` posts to delete-session carries the
identity (owner, name, application), an empty `createdTime`, and the member
"sessionId" with the value `null`. -/
theorem deleteSession_body (env : Env) (userName : GoString) :
    DeleteSession env userName =
      affected (sendPost env
        { method := ascii "POST", url := env.GetUrl (ascii "delete-session") [],
          basicAuth := (env.clientId, env.clientSecret),
          contentType := ascii "text/plain;charset=UTF-8",
          body := .raw (.obj
            [ (ascii "owner", .str (toValidUTF8 env.casdoorOrganization)),
              (ascii "name", .str (toValidUTF8 userName)),
              (ascii "application", .str (toValidUTF8 env.casdoorApplication)),
              (ascii "createdTime", .str []),
              (ascii "sessionId", .null) ]) }) :=
  rfl

/-- C7: `GetSession` returns a nil session and a nil error when the body is
the JSON value `null`; it returns a nil session and the error when the
transport fails, when the body is not JSON, and when the body does not decode
into a `Session`; it never returns both a session and an error. -/
theorem getSession_results (env : Env) (userName : GoString) :
    (env.DoGetBytesRaw (env.GetUrl (ascii "get-session") (getSessionQuery env userName))
        = (.doc .null, none) → GetSession env userName = (none, none))
    ∧ (∀ bytes err,
        env.DoGetBytesRaw (env.GetUrl (ascii "get-session") (getSessionQuery env userName))
          = (bytes, some err) → GetSession env userName = (none, some err))
    ∧ (env.DoGetBytesRaw (env.GetUrl (ascii "get-session") (getSessionQuery env userName))
        = (.invalid, none) → GetSession env userName = (none, some .jsonSyntax))
    ∧ (∀ bytes err,
        env.DoGetBytesRaw (env.GetUrl (ascii "get-session") (getSessionQuery env userName))
          = (bytes, none) →
        (unmarshalSession bytes).2 = some err → GetSession env userName = (none, some err))
    ∧ ¬ ((GetSession env userName).1 ≠ none ∧ (GetSession env userName).2 ≠ none) := by
  refine ⟨?_, ?_, ?_, ?_, ?_⟩
  · intro h
    simp [GetSession, h, unmarshalSession]
  · intro bytes err h
    simp [GetSession, h]
  · intro h
    simp [GetSession, h, unmarshalSession]
  · intro bytes err h hu
    have : unmarshalSession bytes = ((unmarshalSession bytes).1, some err) := by rw [← hu]
    simp only [GetSession, h]
    rw [this]
  · simp only [GetSession]
    generalize env.DoGetBytesRaw _ = r
    rcases r with ⟨bytes, _ | e⟩
    · generalize hq : unmarshalSession bytes = q
      rcases q with ⟨session, _ | e⟩ <;> simp [hq]
    · simp

/-- C7 at sample inputs: a `null` body, an unreachable service and a body
that is not JSON. -/
theorem getSession_results_witness :
    GetSession (answering (.doc .null)) (ascii "alice") = (none, none)
    ∧ GetSession unreachable (ascii "alice")
        = (none, some (.transport (ascii "connection refused")))
    ∧ GetSession (answering .invalid) (ascii "alice") = (none, some .jsonSyntax) :=
  ⟨(getSession_results (answering (.doc .null)) (ascii "alice")).1 rfl,
   (getSession_results unreachable (ascii "alice")).2.1 .invalid _ rfl,
   (getSession_results (answering .invalid) (ascii "alice")).2.2.1 rfl⟩


/-- C8: `GetSession` queries get-session with the single parameter
`sessionPkId`, and `IsSessionDuplicated` queries is-session-duplicated with
that same `sessionPkId` and the token; the key is the configured
organization, `userName` and the configured application joined by "/".
`AddSession` and `UpdateSession` post a `Session` whose owner and application
are that same organization and application; on the wire they go through the
string coercion of `json.Marshal`, which changes nothing in valid UTF-8. Two
different application names give two different keys. -/
theorem composite_key_shared (env : Env) (userName sessionId : GoString) :
    GetSession env userName =
      (match env.DoGetBytesRaw (env.GetUrl (ascii "get-session")
          [(ascii "sessionPkId",
            env.casdoorOrganization ++ ascii "/" ++ userName ++ ascii "/"
              ++ env.casdoorApplication)]) with
        | (_, some err) => (none, some err)
        | (bytes, none) =>
          match unmarshalSession bytes with
          | (_, some err) => (none, some err)
          | (session, none) => (session, none))
    ∧ IsSessionDuplicated env userName sessionId =
      (match doGetResponse env (env.GetUrl (ascii "is-session-duplicated")
          [(ascii "sessionPkId",
            env.casdoorOrganization ++ ascii "/" ++ userName ++ ascii "/"
              ++ env.casdoorApplication),
           (ascii "sessionId", sessionId)]) with
        | (none, _) => .error .nilDereference
        | (some resp, _) => .ok (resp.Data.eqBool true))
    ∧ AddSession env userName sessionId =
      affected (doPost env (ascii "add-session") []
        (marshalSession
          { Owner := env.casdoorOrganization, Name := userName,
            Application := env.casdoorApplication, CreatedTime := [],
            SessionId := some [sessionId] }) false)
    ∧ UpdateSession env userName sessionId =
      affected (doPost env (ascii "update-session") []
        (marshalSession
          { Owner := env.casdoorOrganization, Name := userName,
            Application := env.casdoorApplication, CreatedTime := [],
            SessionId := some [sessionId] }) false)
    ∧ marshalSession
        { Owner := env.casdoorOrganization, Name := userName,
          Application := env.casdoorApplication, CreatedTime := [],
          SessionId := some [sessionId] } =
      .obj [ (ascii "owner", .str (toValidUTF8 env.casdoorOrganization)),
             (ascii "name", .str (toValidUTF8 userName)),
             (ascii "application", .str (toValidUTF8 env.casdoorApplication)),
             (ascii "createdTime", .str []),
             (ascii "sessionId", .arr [.str (toValidUTF8 sessionId)]) ]
    ∧ (utf8Valid env.casdoorOrganization = true →
        toValidUTF8 env.casdoorOrganization = env.casdoorOrganization)
    ∧ (utf8Valid env.casdoorApplication = true →
        toValidUTF8 env.casdoorApplication = env.casdoorApplication)
    ∧ getSessionQuery env userName =
      [(ascii "sessionPkId",
        env.casdoorOrganization ++ ascii "/" ++ userName ++ ascii "/" ++ env.casdoorApplication)]
    ∧ isSessionDuplicatedQuery env userName sessionId =
      [(ascii "sessionPkId",
        env.casdoorOrganization ++ ascii "/" ++ userName ++ ascii "/" ++ env.casdoorApplication),
       (ascii "sessionId", sessionId)]
    ∧ (addSessionValue env userName sessionId).Owner = env.casdoorOrganization
    ∧ (addSessionValue env userName sessionId).Application = env.casdoorApplication
    ∧ (updateSessionValue env userName sessionId).Owner = env.casdoorOrganization
    ∧ (updateSessionValue env userName sessionId).Application = env.casdoorApplication
    ∧ (∀ app1 app2 : GoString, app1 ≠ app2 →
        env.casdoorOrganization ++ ascii "/" ++ userName ++ ascii "/" ++ app1
          ≠ env.casdoorOrganization ++ ascii "/" ++ userName ++ ascii "/" ++ app2
        ∧ getSessionQuery { env with casdoorApplication := app1 } userName
          ≠ getSessionQuery { env with casdoorApplication := app2 } userName
        ∧ isSessionDuplicatedQuery { env with casdoorApplication := app1 } userName sessionId
          ≠ isSessionDuplicatedQuery { env with casdoorApplication := app2 } userName
              sessionId) := by
  refine ⟨rfl, rfl, rfl, rfl, rfl, (toValidUTF8_eq_iff _).mpr, (toValidUTF8_eq_iff _).mpr,
    rfl, rfl, rfl, rfl, rfl, rfl, ?_⟩
  intro app1 app2 hne
  refine ⟨?_, ?_, ?_⟩
  · intro h
    exact hne (List.append_cancel_left h)
  · intro h
    simp only [getSessionQuery, getOrg, getApp, Sprintf3, List.cons.injEq, Prod.mk.injEq,
      true_and, and_true] at h
    exact hne (List.append_cancel_left h)
  · intro h
    simp only [isSessionDuplicatedQuery, getOrg, getApp, Sprintf3, List.cons.injEq,
      Prod.mk.injEq, true_and, and_true] at h
    exact hne (List.append_cancel_left h)

/-- C8 at sample inputs: for the organization "casbin" and the user "alice",
the applications "app-a" and "app-b" give different keys, and with the
application "app-confita" an answer `data: true` to the duplicate check comes
back as `true`. -/
theorem composite_key_shared_witness :
    ascii "casbin" ++ ascii "/" ++ ascii "alice" ++ ascii "/" ++ ascii "app-a"
      ≠ ascii "casbin" ++ ascii "/" ++ ascii "alice" ++ ascii "/" ++ ascii "app-b"
    ∧ IsSessionDuplicated (answering (envelope (ascii "ok") [] (.bool true)))
        (ascii "alice") (ascii "token-1") = .ok true :=
  ⟨((composite_key_shared (answering .invalid) (ascii "alice")
      (ascii "token-1")).2.2.2.2.2.2.2.2.2.2.2.2.2
      (ascii "app-a") (ascii "app-b") (by decide)).1,
   (composite_key_shared (answering (envelope (ascii "ok") [] (.bool true))) (ascii "alice")
      (ascii "token-1")).2.1.trans rfl⟩

theorem append_slash_inj (a b x y : GoString) (ha : (0x2F : UInt8) ∉ a)
    (hb : (0x2F : UInt8) ∉ b) (h : a ++ 0x2F :: x = b ++ 0x2F :: y) : a = b ∧ x = y := by
  induction a generalizing b with
  | nil =>
    cases b with
    | nil => simpa using h
    | cons d b =>
      simp only [List.nil_append, List.cons_append, List.cons.injEq] at h
      exact absurd (h.1 ▸ List.mem_cons_self _ _) hb
  | cons c a ih =>
    cases b with
    | nil =>
      simp only [List.nil_append, List.cons_append, List.cons.injEq] at h
      exact absurd (h.1 ▸ List.mem_cons_self _ _) ha
    | cons d b =>
      simp only [List.cons_append, List.cons.injEq] at h
      have hr := ih b (fun hm => ha (List.mem_cons_of_mem _ hm))
        (fun hm => hb (List.mem_cons_of_mem _ hm)) h.2
      exact ⟨by rw [h.1, hr.1], hr.2⟩

theorem Sprintf3_eq (a b c : GoString) :
    Sprintf3 a b c = a ++ 0x2F :: (b ++ 0x2F :: c) := by
  have hs : ascii "/" = [0x2F] := rfl
  simp [Sprintf3, hs]

/-- C10: the key `organization/userName/application` determines its three
parts when neither organization nor userName has a "/" in it, and does not in
general: the user "a/b" with application "c" and the user "a" with
application "b/c" get one and the same key. -/
theorem composite_key_injective :
    (∀ o1 u1 a1 o2 u2 a2 : GoString,
      (0x2F : UInt8) ∉ o1 → (0x2F : UInt8) ∉ u1 → (0x2F : UInt8) ∉ o2 → (0x2F : UInt8) ∉ u2 →
      Sprintf3 o1 u1 a1 = Sprintf3 o2 u2 a2 → o1 = o2 ∧ u1 = u2 ∧ a1 = a2)
    ∧ (ascii "o", ascii "a/b", ascii "c") ≠ (ascii "o", ascii "a", ascii "b/c")
    ∧ Sprintf3 (ascii "o") (ascii "a/b") (ascii "c")
        = Sprintf3 (ascii "o") (ascii "a") (ascii "b/c") := by
  refine ⟨?_, by decide, by decide⟩
  intro o1 u1 a1 o2 u2 a2 ho1 hu1 ho2 hu2 h
  rw [Sprintf3_eq, Sprintf3_eq] at h
  obtain ⟨h1, h2⟩ := append_slash_inj _ _ _ _ ho1 ho2 h
  obtain ⟨h3, h4⟩ := append_slash_inj _ _ _ _ hu1 hu2 h2
  exact ⟨h1, h3, h4⟩

/-- C10 at sample inputs: equal keys of two slash-free triples. -/
theorem composite_key_injective_witness :
    (0x2F : UInt8) ∉ ascii "casbin" ∧ (0x2F : UInt8) ∉ ascii "alice"
    ∧ Sprintf3 (ascii "casbin") (ascii "alice") (ascii "app")
        = Sprintf3 (ascii "casbin") (ascii "alice") (ascii "app")
    ∧ (ascii "casbin" = ascii "casbin" ∧ ascii "alice" = ascii "alice"
        ∧ ascii "app" = ascii "app") :=
  ⟨by decide, by decide, rfl,
   composite_key_injective.1 (ascii "casbin") (ascii "alice") (ascii "app")
     (ascii "casbin") (ascii "alice") (ascii "app")
     (by decide) (by decide) (by decide) (by decide) rfl⟩


/-! ## Round trip of a `Session` through JSON -/

theorem map_toValidUTF8_eq_iff (ids : List GoString) :
    ids.map toValidUTF8 = ids ↔ ids.all utf8Valid = true := by
  induction ids with
  | nil => simp
  | cons t ts ih =>
    simp only [List.map_cons, List.cons.injEq, List.all_cons, Bool.and_eq_true,
      toValidUTF8_eq_iff, ih]

theorem storeItems_strings (field : GoString) (cur ids : List GoString) :
    storeItems field cur (ids.map (fun t => Json.str (toValidUTF8 t)))
      = (ids.map toValidUTF8, none) := by
  induction ids generalizing cur with
  | nil => rfl
  | cons t ts ih => simp [storeItems, storeString, saveError, ih]

theorem unmarshal_marshal (s : Session) :
    unmarshalSession (.doc (marshalSession s)) = (some s.coerced, none) := by
  obtain ⟨owner, name, application, createdTime, ids⟩ := s
  cases ids with
  | none => rfl
  | some ids =>
    have h := storeItems_strings (ascii "sessionId") [] ids
    have e : unmarshalSession (.doc (marshalSession
        { Owner := owner, Name := name, Application := application,
          CreatedTime := createdTime, SessionId := some ids }))
        = (some { Owner := toValidUTF8 owner, Name := toValidUTF8 name,
                  Application := toValidUTF8 application,
                  CreatedTime := toValidUTF8 createdTime,
                  SessionId := (storeItems (ascii "sessionId") []
                    (ids.map (fun t => Json.str (toValidUTF8 t)))).1 },
           (storeItems (ascii "sessionId") []
                    (ids.map (fun t => Json.str (toValidUTF8 t)))).2) := rfl
    rw [e, h]
    rfl

theorem coerced_eq_iff (s : Session) : s.coerced = s ↔ s.validUTF8 = true := by
  obtain ⟨owner, name, application, createdTime, ids⟩ := s
  cases ids with
  | none =>
    simp [Session.coerced, Session.validUTF8, toValidUTF8_eq_iff, and_assoc]
  | some ids =>
    simp only [Session.coerced, Session.validUTF8, Session.mk.injEq, toValidUTF8_eq_iff,
      Option.map_some', Option.some.injEq, map_toValidUTF8_eq_iff, Option.getD_some,
      Bool.and_eq_true, and_assoc]

/-- C9 fails: a `Session` whose owner is the single byte 0xFF, which is not
valid UTF-8, comes back from the round trip with another owner. -/
theorem session_round_trip_fails_on_invalid_utf8 :
    ¬ (unmarshalSession (.doc (marshalSession
          { Owner := [0xFF], Name := ascii "alice", Application := ascii "app-confita",
            CreatedTime := [], SessionId := some [ascii "token-1"] }))
        = (some { Owner := [0xFF], Name := ascii "alice", Application := ascii "app-confita",
                  CreatedTime := [], SessionId := some [ascii "token-1"] }, none)) := by
  decide

/-- C9 amended: writing a `Session` as JSON and decoding that JSON gives back
a record equal to the original in every field, with the tokens in the same
order and a nil list kept apart from an empty one, exactly when every string
of the record is valid UTF-8. -/
theorem session_round_trip (s : Session) :
    unmarshalSession (.doc (marshalSession s)) = (some s, none) ↔ s.validUTF8 = true := by
  rw [unmarshal_marshal, ← coerced_eq_iff]
  simp

/-- C9 amended, at sample inputs: a record with two tokens and a two-byte
character in the name, a record with an empty list, and one with a nil
list. -/
theorem session_round_trip_witness :
    unmarshalSession (.doc (marshalSession
        { Owner := ascii "casbin", Name := 0xC3 :: 0xA9 :: ascii "lise",
          Application := ascii "app-confita", CreatedTime := ascii "2022-11-04T10:00:00Z",
          SessionId := some [ascii "token-2", ascii "token-1"] }))
      = (some { Owner := ascii "casbin", Name := 0xC3 :: 0xA9 :: ascii "lise",
                Application := ascii "app-confita",
                CreatedTime := ascii "2022-11-04T10:00:00Z",
                SessionId := some [ascii "token-2", ascii "token-1"] }, none)
    ∧ unmarshalSession (.doc (marshalSession
        { Owner := ascii "casbin", Name := ascii "alice", Application := ascii "app-confita",
          CreatedTime := [], SessionId := some [] }))
      = (some { Owner := ascii "casbin", Name := ascii "alice",
                Application := ascii "app-confita", CreatedTime := [],
                SessionId := some [] }, none)
    ∧ unmarshalSession (.doc (marshalSession
        { Owner := ascii "casbin", Name := ascii "alice", Application := ascii "app-confita",
          CreatedTime := [], SessionId := none }))
      = (some { Owner := ascii "casbin", Name := ascii "alice",
                Application := ascii "app-confita", CreatedTime := [],
                SessionId := none }, none) :=
  ⟨(session_round_trip _).mpr (by decide), (session_round_trip _).mpr (by decide),
   (session_round_trip _).mpr (by decide)⟩


end Confita
